import Mathlib

/-!
Verification development for the LinkedIn post generator
(`post_generator.py` and the `/generate_posts` endpoint of `main.py`).

The Python code is shallowly embedded:
* text is `String` / `List Char` (ASCII case folding, as all relevant
  literals are ASCII);
* float latencies and progress values are `ℚ`; Python `round(x, 3)`
  (banker's rounding) is modelled exactly over `ℚ`;
* each provider HTTP interaction is an element of `ProviderResult`
  supplied by an environment `env : Nat → ProviderResult × ℚ` giving the
  outcome and the measured latency of the n-th provider call of a run;
* Python exceptions are `Except PyErr`;
* `json.loads` is modelled by a strict fuelled JSON reader over the same
  grammar (numbers keep their lexeme: no numeric value is ever consumed
  by the code under verification).
-/

/-- ASCII apostrophe, kept out of string literals. -/
def apos : String := (Char.ofNat 39).toString

/-- Python `str.lower` (ASCII case folding). -/
def pyLower (s : String) : String := ⟨s.data.map Char.toLower⟩

/-- Whitespace stripped by Python `str.strip()` (ASCII part). -/
def isPySpace (c : Char) : Bool :=
  c = ' ' ∨ c = '\t' ∨ c = '\n' ∨ c = '\r' ∨ c = Char.ofNat 11 ∨ c = Char.ofNat 12

/-- Python `str.strip()` on a char list. -/
def pyStripList (l : List Char) : List Char :=
  ((l.dropWhile isPySpace).reverse.dropWhile isPySpace).reverse

/-- Python `str.strip()`. -/
def pyStrip (s : String) : String := ⟨pyStripList s.data⟩

/-- Scan for `n` as a contiguous sublist (Python substring search). -/
def containsList (n : List Char) : List Char → Bool
  | [] => n.isEmpty
  | l@(_ :: t) => n.isPrefixOf l || containsList n t

/-- Python substring containment `needle in hay`. -/
def containsSub (needle hay : String) : Bool := containsList needle.data hay.data

/-- Python `text.split(chr(10))`: split on newline, keeping empty pieces. -/
def splitLines : List Char → List (List Char)
  | [] => [[]]
  | c :: rest =>
    let r := splitLines rest
    if c = '\n' then [] :: r
    else
      match r with
      | [] => [[c]]
      | h :: t => (c :: h) :: t

/-- Everything after the first `'.'` of the list (empty if none occurs). -/
def afterFirstDot : List Char → List Char
  | [] => []
  | c :: rest => if c = '.' then rest else afterFirstDot rest

/-- Python `line.split(chr(46), 1)[-1]`: the part after the first dot,
or the whole line when no dot occurs. -/
def splitDotOnce (l : List Char) : List Char :=
  if l.contains '.' then afterFirstDot l else l

/-- Index of the first occurrence of `c`, if any. -/
def indexOfChar (c : Char) : List Char → Option Nat
  | [] => none
  | x :: rest =>
    if x = c then some 0
    else (indexOfChar c rest).map (· + 1)

/-- Index of the last occurrence of `c`, if any. -/
def lastIndexOfChar (c : Char) (l : List Char) : Option Nat :=
  (indexOfChar c l.reverse).map (fun i => l.length - 1 - i)

/-- Python `s[s.find(chr(123)) : s.rfind(chr(125)) + 1]`, the slice from
the first opening to the last closing brace (used on strings already known
to contain both; any other case yields the empty slice like Python's). -/
def sliceFirstLastBrace (l : List Char) : List Char :=
  match indexOfChar (Char.ofNat 123) l, lastIndexOfChar (Char.ofNat 125) l with
  | some i, some j => (l.take (j + 1)).drop i
  | _, _ => []

/-- JSON values as produced by `json.loads`.  Numbers keep their source
lexeme: the generator never reads a numeric value, it only checks whether
a value is a string or a list. -/
inductive JsonVal where
  | null
  | boolean (b : Bool)
  | num (lexeme : String)
  | str (s : String)
  | arr (elems : List JsonVal)
  | obj (fields : List (String × JsonVal))

/-- JSON whitespace accepted by `json.loads` between tokens. -/
def skipWs : List Char → List Char :=
  List.dropWhile (fun c => c = ' ' ∨ c = '\t' ∨ c = '\n' ∨ c = '\r')

/-- Decode one string-escape character (the char after a backslash),
excluding `u` escapes which are handled separately. -/
def jsonEscChar (c : Char) : Option Char :=
  if c = '"' ∨ c = '\\' ∨ c = '/' then some c
  else if c = 'b' then some (Char.ofNat 8)
  else if c = 'f' then some (Char.ofNat 12)
  else if c = 'n' then some '\n'
  else if c = 'r' then some '\r'
  else if c = 't' then some '\t'
  else none

/-- Hex digit value. -/
def hexVal (c : Char) : Option Nat :=
  if '0' ≤ c ∧ c ≤ '9' then some (c.toNat - 48)
  else if 'a' ≤ c ∧ c ≤ 'f' then some (c.toNat - 87)
  else if 'A' ≤ c ∧ c ≤ 'F' then some (c.toNat - 70)
  else none

/-- Body of a JSON string after the opening quote.  Returns the decoded
characters and the rest of the input after the closing quote.  Raw control
characters are rejected as in strict `json.loads`.  (Unicode escapes decode
to the corresponding scalar; surrogate-pair recombination is irrelevant to
the generator, which never feeds such input to the reader.) -/
def parseJStringBody : List Char → Option (List Char × List Char)
  | [] => none
  | c :: rest =>
    if c = '"' then some ([], rest)
    else if c = '\\' then
      match rest with
      | [] => none
      | e :: rest2 =>
        if e = 'u' then
          match rest2 with
          | a :: b :: c2 :: d :: rest3 =>
            match hexVal a, hexVal b, hexVal c2, hexVal d with
            | some va, some vb, some vc, some vd =>
              (parseJStringBody rest3).map fun (cs, r) =>
                (Char.ofNat (((va * 16 + vb) * 16 + vc) * 16 + vd) :: cs, r)
            | _, _, _, _ => none
          | _ => none
        else
          match jsonEscChar e with
          | some ch => (parseJStringBody rest2).map fun (cs, r) => (ch :: cs, r)
          | none => none
    else if c.toNat < 32 then none
    else (parseJStringBody rest).map fun (cs, r) => (c :: cs, r)

/-- Longest run of decimal digits at the front. -/
def spanDigits : List Char → List Char × List Char
  | [] => ([], [])
  | c :: rest =>
    if c.isDigit then
      let (ds, r) := spanDigits rest
      (c :: ds, r)
    else ([], c :: rest)

/-- JSON number lexeme (`-? (0 | [1-9][0-9]*) frac? exp?`); returns the
lexeme and the rest. -/
def parseJNumber (l : List Char) : Option (List Char × List Char) :=
  let (sign, l1) :=
    match l with
    | '-' :: t => (['-'], t)
    | _ => (([] : List Char), l)
  match l1 with
  | [] => none
  | c :: rest =>
    if ¬ c.isDigit then none
    else
      let (intPart, r1) :=
        if c = '0' then ([c], rest) else spanDigits l1
      let (fracPart, r2) :=
        match r1 with
        | '.' :: d :: t =>
          if d.isDigit then
            let (ds, r) := spanDigits (d :: t)
            ('.' :: ds, r)
          else (([] : List Char), r1)
        | _ => (([] : List Char), r1)
      let (expPart, r3) :=
        match r2 with
        | e :: t =>
          if e = 'e' ∨ e = 'E' then
            match t with
            | s :: t2 =>
              if s = '+' ∨ s = '-' then
                match t2 with
                | d :: _ =>
                  if d.isDigit then
                    let (ds, r) := spanDigits t2
                    (e :: s :: ds, r)
                  else (([] : List Char), r2)
                | [] => (([] : List Char), r2)
              else if s.isDigit then
                let (ds, r) := spanDigits t
                (e :: ds, r)
              else (([] : List Char), r2)
            | [] => (([] : List Char), r2)
          else (([] : List Char), r2)
        | [] => (([] : List Char), r2)
      some (sign ++ intPart ++ fracPart ++ expPart, r3)

mutual

/-- One JSON value (fuelled recursive descent, strict like `json.loads`). -/
def parseJsonValue (fuel : Nat) (l : List Char) : Option (JsonVal × List Char) :=
  match fuel with
  | 0 => none
  | f + 1 =>
    match skipWs l with
    | [] => none
    | c :: rest =>
      if c = Char.ofNat 123 then
        match skipWs rest with
        | c2 :: r2 =>
          if c2 = Char.ofNat 125 then some (.obj [], r2)
          else (parseJsonMembers f (c2 :: r2)).map fun (ms, r) => (.obj ms, r)
        | [] => none
      else if c = '[' then
        match skipWs rest with
        | c2 :: r2 =>
          if c2 = ']' then some (.arr [], r2)
          else (parseJsonElems f (c2 :: r2)).map fun (es, r) => (.arr es, r)
        | [] => none
      else if c = '"' then
        (parseJStringBody rest).map fun (cs, r) => (.str ⟨cs⟩, r)
      else
        match c :: rest with
        | 't' :: 'r' :: 'u' :: 'e' :: r => some (.boolean true, r)
        | 'f' :: 'a' :: 'l' :: 's' :: 'e' :: r => some (.boolean false, r)
        | 'n' :: 'u' :: 'l' :: 'l' :: r => some (.null, r)
        | l2 => (parseJNumber l2).map fun (lex, r) => (.num ⟨lex⟩, r)

/-- Members of a JSON object, positioned at the first key. -/
def parseJsonMembers (fuel : Nat) (l : List Char) :
    Option (List (String × JsonVal) × List Char) :=
  match fuel with
  | 0 => none
  | f + 1 =>
    match skipWs l with
    | '"' :: rest =>
      match parseJStringBody rest with
      | none => none
      | some (key, r1) =>
        match skipWs r1 with
        | ':' :: r2 =>
          match parseJsonValue f r2 with
          | none => none
          | some (v, r3) =>
            match skipWs r3 with
            | ',' :: r4 =>
              (parseJsonMembers f r4).map fun (ms, r) => ((⟨key⟩, v) :: ms, r)
            | c :: r4 =>
              if c = Char.ofNat 125 then some ([(⟨key⟩, v)], r4) else none
            | [] => none
        | _ => none
    | _ => none

/-- Elements of a JSON array, positioned at the first element. -/
def parseJsonElems (fuel : Nat) (l : List Char) :
    Option (List JsonVal × List Char) :=
  match fuel with
  | 0 => none
  | f + 1 =>
    match parseJsonValue f l with
    | none => none
    | some (v, r1) =>
      match skipWs r1 with
      | ',' :: r2 => (parseJsonElems f r2).map fun (es, r) => (v :: es, r)
      | ']' :: r2 => some ([v], r2)
      | _ => none

end

/-- Python `json.loads`: one JSON value followed only by whitespace.
The fuel `s.length + 1` never runs out: every fuel step consumes at least
one input character first. -/
def jsonLoads (s : String) : Option JsonVal :=
  match parseJsonValue (s.length + 1) s.data with
  | some (v, rest) => if skipWs rest = [] then some v else none
  | none => none

/-- Python `dict.get key deflt` on a parsed JSON object (later duplicate
keys overwrite earlier ones, as in a Python dict). -/
def objGet (fields : List (String × JsonVal)) (key : String) (deflt : JsonVal) :
    JsonVal :=
  match fields.reverse.find? (fun kv => kv.1 == key) with
  | some kv => kv.2
  | none => deflt

/-- Outcome of one provider HTTP interaction, as observed by the client:
a 200 response with its generated text and optionally reported token
usage (`data["usage"]["total_tokens"]`), a non-200 response with its
body, an `aiohttp.ClientError`, or any other unexpected exception
(including a 200 whose body lacks the expected fields). -/
inductive ProviderResult where
  | success (text : String) (usage : Option Nat)
  | httpError (status : Nat) (body : String)
  | transportError (msg : String)
  | otherError (msg : String)
deriving DecidableEq

/-- Python exceptions escaping the generator module. -/
inductive PyErr where
  /-- `ValueError` (bad provider identifier). -/
  | valueError (msg : String)
  /-- `LLMProviderError`. -/
  | providerError (msg : String)
  /-- `AttributeError` (string method called on a non-string JSON value). -/
  | attributeError (msg : String)
  /-- `fastapi.HTTPException` raised inside the endpoint body. -/
  | httpException (status : Nat) (detail : String)
deriving DecidableEq

/-- Python `str(e)` for the exceptions above (a `fastapi.HTTPException`
prints as `"{status_code}: {detail}"`). -/
def pyErrMsg : PyErr → String
  | .valueError m => m
  | .providerError m => m
  | .attributeError m => m
  | .httpException s d => s!"{s}: {d}"

/-- `LLMClient` state: configuration plus the metrics accumulators. -/
structure LLMClient where
  provider : String
  api_key : String
  use_mock : Bool
  total_tokens : Nat
  total_latency : ℚ
  call_count : Nat
deriving DecidableEq

/-- `LLMClient.__init__`: lowercases the provider, rejects unknown
providers with `ValueError`, and enters mock mode when the key is empty
or a known placeholder. -/
def LLMClient.make (provider api_key : String) : Except PyErr LLMClient :=
  let p := pyLower provider
  if p ≠ "gemini" ∧ p ≠ "groq" then
    .error (.valueError ("Provider must be " ++ apos ++ "gemini" ++ apos ++
      " or " ++ apos ++ "groq" ++ apos))
  else
    .ok { provider := p, api_key := api_key,
          use_mock := api_key = "" ∨ api_key = "your_api_key_here" ∨
            api_key = "YOUR_API_KEY_HERE",
          total_tokens := 0, total_latency := 0, call_count := 0 }

/-- Python `round(x, 2 + 1)`s inner integer rounding: round half to even
(banker's rounding), as `round()` does. -/
def roundHalfEven (x : ℚ) : ℤ :=
  if x - ⌊x⌋ < 1 / 2 then ⌊x⌋
  else if x - ⌊x⌋ > 1 / 2 then ⌊x⌋ + 1
  else if ⌊x⌋ % 2 = 0 then ⌊x⌋ else ⌊x⌋ + 1

/-- Python `round(q, 3)` over `ℚ`. -/
def round3 (q : ℚ) : ℚ := (roundHalfEven (q * 1000) : ℚ) / 1000

/-- The dict returned by `LLMClient.get_metrics`. -/
structure Metrics where
  total_tokens : Nat
  total_latency : ℚ
  call_count : Nat
  avg_latency_per_call : ℚ
deriving DecidableEq

/-- `LLMClient.get_metrics`. -/
def LLMClient.get_metrics (c : LLMClient) : Metrics :=
  { total_tokens := c.total_tokens,
    total_latency := round3 c.total_latency,
    call_count := c.call_count,
    avg_latency_per_call := round3 (c.total_latency / (max c.call_count 1 : ℕ)) }

/-- The canned brainstorm list of `LLMClient._mock_response`. -/
def mockAngles : String :=
  "1. Personal career journey and lessons learned\n2. Industry trends and future predictions\n3. Tips and best practices for professionals"

/-- The canned LinkedIn-post draft of `LLMClient._mock_response`. -/
def mockDraft : String :=
  s!"🚀 Exciting times in the tech industry! \n\nAs someone passionate about innovation, I{apos}ve been reflecting on how rapidly our field evolves. Every day brings new opportunities to learn, grow, and make an impact.\n\nWhether you{apos}re just starting your career or you{apos}re a seasoned professional, remember that continuous learning is key. Embrace challenges, seek mentorship, and don{apos}t be afraid to step outside your comfort zone.\n\nWhat{apos}s one thing you{apos}ve learned recently that changed your perspective? I{apos}d love to hear your thoughts in the comments!\n\n#TechInnovation #CareerGrowth #ContinuousLearning #ProfessionalDevelopment #Innovation"

/-- The canned hashtags/CTA JSON of `LLMClient._mock_response`. -/
def mockRefinement : String :=
  s!"\x7b\n    \"hashtags\": [\"#TechInnovation\", \"#CareerGrowth\", \"#ContinuousLearning\", \"#ProfessionalDevelopment\", \"#Innovation\"],\n    \"cta\": \"What{apos}s one thing you{apos}ve learned recently that changed your perspective? Share your thoughts in the comments!\"\n\x7d"

/-- The catch-all canned text of `LLMClient._mock_response`. -/
def mockFallbackText : String := "Mock response - API call failed or not configured"

/-- `LLMClient._mock_response`: deterministic canned text chosen by
prompt shape. -/
def mock_response (prompt : String) : String :=
  let pl := pyLower prompt
  if containsSub "brainstorm" pl ∧ containsSub "angles" pl then mockAngles
  else if containsSub "linkedin post" pl ∧ containsSub "write" pl then mockDraft
  else if containsSub "hashtags" pl ∧ containsSub "cta" pl then mockRefinement
  else mockFallbackText

/-- `LLMClient._call_groq`.  The oracle outcome records where the HTTP
interaction stopped, and the accounting follows the source's `try` /
`except aiohttp.ClientError` / `except Exception` structure:
* `.success text usage` — a 200 response with a well-formed body: the
  response block accumulates latency and increments the call count once,
  tokens are added only when the body reports usage, the text is returned;
* `.httpError status body` — a response with a non-200 status: the
  response block accumulates once, then the function's own
  `raise LLMProviderError(f"Groq API error {status}: {error_text}")` is
  raised inside the `try`, so it is caught by the trailing
  `except Exception`, which accumulates latency and increments the call
  count a second time and re-raises with the message wrapped as
  `Unexpected error: ...`.  Both latency measurements are taken from the
  same `start_time`; the model uses the one environment-supplied latency
  for both accumulations (the second Python measurement exceeds the first
  only by the handler's own running time);
* `.transportError msg` — the request fails with an `aiohttp.ClientError`
  before the response block is entered: only the `except
  aiohttp.ClientError` handler runs, accumulating once and raising
  `Connection error: ...`;
* `.otherError msg` — a 200 response whose body is malformed (the
  `data[...]` access raises): the response block has already accumulated
  once, and the trailing `except Exception` accumulates a second time and
  raises `Unexpected error: ...`. -/
def LLMClient.call_groq (c : LLMClient) (res : ProviderResult) (latency : ℚ) :
    LLMClient × Except PyErr String :=
  match res with
  | .success text usage =>
    ({ c with total_latency := c.total_latency + latency,
              call_count := c.call_count + 1,
              total_tokens := c.total_tokens + usage.getD 0 }, .ok text)
  | .httpError status body =>
    ({ c with total_latency := c.total_latency + latency + latency,
              call_count := c.call_count + 1 + 1 },
     .error (.providerError s!"Unexpected error: Groq API error {status}: {body}"))
  | .transportError msg =>
    ({ c with total_latency := c.total_latency + latency,
              call_count := c.call_count + 1 },
     .error (.providerError s!"Connection error: {msg}"))
  | .otherError msg =>
    ({ c with total_latency := c.total_latency + latency + latency,
              call_count := c.call_count + 1 + 1 },
     .error (.providerError s!"Unexpected error: {msg}"))

/-- `LLMClient._call_gemini`: returns the response text on success and
falls back to the mock generator on any failure; it never raises and
never touches the metrics accumulators. -/
def LLMClient.call_gemini (_c : LLMClient) (prompt : String)
    (res : ProviderResult) : String :=
  match res with
  | .success text _ => text
  | _ => mock_response prompt

/-- `LLMClient.generate_text`.  `max_tokens` only shapes the provider
request; `res`/`latency` are the environment-supplied outcome of the
network call (unused in mock mode, where no network request happens).
The constructor restricts `provider` to `"gemini"`/`"groq"`, so the
final branch is the groq path. -/
def LLMClient.generate_text (c : LLMClient) (prompt : String)
    (max_tokens : Nat) (res : ProviderResult) (latency : ℚ) :
    LLMClient × Except PyErr String :=
  let _ := max_tokens
  if c.use_mock then (c, .ok (mock_response prompt))
  else if c.provider = "gemini" then (c, .ok (c.call_gemini prompt res))
  else c.call_groq res latency

/-- The fixed denylist of `moderate_content`, in source order. -/
def banned_words : List String :=
  ["spam", "scam", "hate", "violence", "discriminat", "harass",
   "illegal", "fraud", "misleading", "fake news", "misinformation"]

/-- First denylist hit: the first banned word occurring (case-insensitively)
in the text, following the source's loop order. -/
def firstBannedWord (text : String) : Option String :=
  banned_words.find? (fun w => containsSub w (pyLower text))

/-- The capitalization heuristic of `moderate_content`: texts longer than
50 characters with more than 70% uppercase characters. -/
def capsTriggered (text : String) : Bool :=
  let n := text.data.length
  if n > 50 then
    decide ((((text.data.filter Char.isUpper).length : ℚ) / (n : ℚ)) > 7 / 10)
  else false

/-- The punctuation heuristic of `moderate_content`: the regex
`[!]\x7b3,\x7d|[?]\x7b3,\x7d|[.]\x7b3,\x7d`, i.e. some run of three or
more identical `!`, `?` or `.` characters (equivalently: containing one
of the three-character substrings). -/
def punctTriggered (text : String) : Bool :=
  containsSub "!!!" text ∨ containsSub "???" text ∨ containsSub "..." text

/-- `moderate_content`: first match wins, in source order — denylist,
then capitalization, then punctuation. -/
def moderate_content (text : String) : Bool × String :=
  match firstBannedWord text with
  | some word =>
    (false, "Contains potentially inappropriate content: " ++ apos ++ word ++ apos)
  | none =>
    if capsTriggered text then (false, "Excessive capitalization detected")
    else if punctTriggered text then (false, "Excessive punctuation detected")
    else (true, "")

/-- A 63-character all-caps shout: longer than 50 characters, more than
70% uppercase, ending in a three-`!` run, and free of denylist words —
it trips both the capitalization and the punctuation heuristics. -/
def capsShout : String :=
  "AAAAAAAAAAAAAAAAAAAAAAAAAAAAAAAAAAAAAAAAAAAAAAAAAAAAAAAAAAAA!!!"

/-- One post as assembled by the pipeline (the three keys of the final
dict, identical to the endpoint's `PostResponse`). -/
structure FinalPost where
  post_text : String
  hashtags : List String
  cta : String
deriving DecidableEq

/-- The replacement text substituted for a moderated post. -/
def moderationMessage : String :=
  "[This post was moderated for containing potentially inappropriate content. Please try generating again with a different topic.]"

/-- The per-post body of `apply_content_moderation`'s loop: clean posts
pass through, others get the fixed replacement text, hashtag and CTA. -/
def moderatePost (post : FinalPost) : FinalPost :=
  let (is_clean, _reason) := moderate_content post.post_text
  if is_clean then post
  else { post with
         post_text := moderationMessage,
         hashtags := ["#ContentModerated"],
         cta := "Please try again with a different topic." }

/-- `apply_content_moderation`: the source's append loop, i.e. a map of
the per-post replacement over the list. -/
def apply_content_moderation (posts : List FinalPost) : List FinalPost :=
  posts.map moderatePost

/-- The angle-extraction loop over `angles_response.split(chr(10))`:
a stripped line qualifies if it starts with a digit, `-` or `•`; the part
after the first `.` (or the whole line when it has no dot) is stripped
and kept when non-empty. -/
def parseAngles (resp : String) : List String :=
  (splitLines resp.data).foldr
    (fun rawLine acc =>
      let line := pyStripList rawLine
      match line with
      | [] => acc
      | c :: _ =>
        if c.isDigit ∨ c = '-' ∨ c = '•' then
          let angle := pyStripList (splitDotOnce line)
          if angle = [] then acc else (⟨angle⟩ : String) :: acc
        else acc)
    []

/-- The fixed fallback angle list used when no angle parses, extended by
at most two further templates when more than three posts were asked for. -/
def fallbackAngles (topic : String) (post_count : Nat) : List String :=
  let base := [s!"Personal experience with {topic}",
               s!"Industry trends related to {topic}",
               s!"Best practices for {topic}"]
  if post_count > 3 then
    base ++ ([s!"Future of {topic}", s!"Common mistakes in {topic}"].take (post_count - 3))
  else base

/-- The angle list actually used: parsed angles, or the fallback when
none parse, truncated to at most `post_count` (this block is duplicated
verbatim in the aggregate and the streaming source function). -/
def finalAngles (topic : String) (post_count : Nat) (resp : String) :
    List String :=
  let angles := parseAngles resp
  let angles := if angles = [] then fallbackAngles topic post_count else angles
  angles.take post_count

/-- The brainstorm prompt (with or without web-search context). -/
def brainstormPrompt (topic : String) (post_count : Nat) (context : String) :
    String :=
  if context ≠ "" then
    "Using the following recent context about " ++ topic ++ ", brainstorm " ++
      toString post_count ++
      " unique angles for a LinkedIn post. Context: " ++ context ++
      "\n\nReturn only a numbered list of these angles."
  else
    "Based on the topic " ++ apos ++ topic ++ apos ++ ", brainstorm " ++
      toString post_count ++
      " unique angles for a LinkedIn post. Return only a numbered list of these angles."

/-- The per-angle draft prompt, including the optional tone/audience
modifiers (Python truthiness: an empty tone or audience string counts as
absent) and the optional context. -/
def draftPrompt (context : String) (tone audience : Option String)
    (angle : String) : String :=
  let tone_text :=
    match tone with
    | some t => if t = "" then "" else "The tone should be " ++ t ++ ". "
    | none => ""
  let audience_text :=
    match audience with
    | some a => if a = "" then "" else "The target audience is " ++ a ++ ". "
    | none => ""
  let context_text :=
    if context ≠ "" then
      "Use this context for factual accuracy: " ++ context ++ "\n\n"
    else ""
  context_text ++ "Write a LinkedIn post from the angle: " ++ apos ++ angle ++
    apos ++ ". " ++ audience_text ++ tone_text ++
    "The post should be engaging and around 150 words. Include emojis where appropriate."

/-- The per-draft refinement prompt asking for hashtags and a CTA. -/
def refinementPrompt (post : String) : String :=
  "For the following LinkedIn post, generate 5 relevant hashtags and a compelling call-to-action (CTA). \nFormat the output as JSON with " ++
    apos ++ "hashtags" ++ apos ++ " and " ++ apos ++ "cta" ++ apos ++
    " keys. \n\nPost: " ++ post ++ "\n\nReturn only the JSON object."

/-- The deterministic fallback hashtags used when refinement parsing fails. -/
def fallbackHashtags (topic : String) : List String :=
  let compact : String := ⟨topic.data.filter (· ≠ ' ')⟩
  [s!"#{compact}", "#LinkedIn", "#Professional",
   "#Growth", "#Insights"]

/-- The fallback CTA used when refinement parsing fails. -/
def fallbackCta : String := "What are your thoughts? Share in the comments!"

/-- Hashtag normalization: a tag already starting with `#` passes through,
any other tag gets its spaces removed and a `#` prefixed. -/
def normalizeTag (t : String) : String :=
  if t.data.head? = some '#' then t
  else "#" ++ (⟨t.data.filter (· ≠ ' ')⟩ : String)

/-- The body of the hashtag normalization comprehension
`[tag if tag.startswith(...) else ... for tag in hashtags]`: it raises
`AttributeError` when a parsed JSON hashtag is not a string. -/
def normalizeJsonTag : JsonVal → Except PyErr String
  | .str t => .ok (normalizeTag t)
  | _ => .error (.attributeError "object has no attribute startswith")

/-- The hashtag normalization comprehension over a parsed JSON list; the
first non-string element raises, later elements stay unevaluated. -/
def normalizeTags : List JsonVal → Except PyErr (List String)
  | [] => .ok []
  | j :: rest =>
    match normalizeJsonTag j with
    | .error e => .error e
    | .ok t =>
      match normalizeTags rest with
      | .error e => .error e
      | .ok ts => .ok (t :: ts)

/-- The per-post combination step of both pipeline forms: extract the
JSON object between the first and last brace of the refinement response
(`json.loads` failure or missing braces fall back to the deterministic
topic-derived hashtags/CTA), normalize the hashtags, and strip post and
CTA.  A parsed hashtag list containing a non-string, or a parsed non-string
CTA, raises `AttributeError` exactly where Python would call `.startswith`
or `.strip` on it. -/
def buildFinalPost (topic : String) (post refinement : String) :
    Except PyErr FinalPost :=
  let parsed : Option (JsonVal × JsonVal) :=
    if refinement.data.contains (Char.ofNat 123) ∧
       refinement.data.contains (Char.ofNat 125) then
      match jsonLoads ⟨sliceFirstLastBrace refinement.data⟩ with
      | some (.obj fields) =>
        some (objGet fields "hashtags" (.arr []), objGet fields "cta" (.str ""))
      | _ => none
    else none
  let (hashtagsVal, ctaVal) :=
    match parsed with
    | some hv => hv
    | none => (JsonVal.arr ((fallbackHashtags topic).map JsonVal.str),
               JsonVal.str fallbackCta)
  let hashtagsRes : Except PyErr (List String) :=
    match hashtagsVal with
    | .arr xs => normalizeTags xs
    | _ => .ok (fallbackHashtags topic)
  match hashtagsRes with
  | .error e => .error e
  | .ok tags =>
    match ctaVal with
    | .str cta => .ok { post_text := pyStrip post, hashtags := tags,
                        cta := pyStrip cta }
    | _ => .error (.attributeError "object has no attribute strip")

/-- The final-post assembly loop of the aggregate form (`for i, (post,
refinement) in enumerate(zip(...))`): builds each post in order,
propagating the first raised exception. -/
def buildPosts (topic : String) :
    List (String × String) → Except PyErr (List FinalPost)
  | [] => .ok []
  | (post, refinement) :: rest =>
    match buildFinalPost topic post refinement with
    | .error e => .error e
    | .ok fp =>
      match buildPosts topic rest with
      | .error e => .error e
      | .ok fps => .ok (fp :: fps)

/-- The result dict of the aggregate pipeline. -/
structure GenResult where
  posts : List FinalPost
  metrics : Metrics
  used_web_search : Bool
  context_found : Bool
deriving DecidableEq

/-- A fan-out/fan-in stage: one `generate_text` call per prompt, threading
the client state and the environment call index.  A failing sub-call fails
the whole stage (the client state past the failure is unobservable, since
a failed stage never reports metrics). -/
def runBatch (env : Nat → ProviderResult × ℚ) (max_tokens : Nat)
    (c : LLMClient) (idx : Nat) (prompts : List String) :
    LLMClient × Nat × Except PyErr (List String) :=
  match prompts with
  | [] => (c, idx, .ok [])
  | p :: rest =>
    let (r, lat) := env idx
    let (c', out) := c.generate_text p max_tokens r lat
    match out with
    | .error e => (c', idx + 1, .error e)
    | .ok t =>
      match runBatch env max_tokens c' (idx + 1) rest with
      | (c'', idx', .error e) => (c'', idx', .error e)
      | (c'', idx', .ok ts) => (c'', idx', .ok (t :: ts))

/-- `create_linkedin_posts` (aggregate form).  `env` supplies the outcome
of each provider call in call order; `webResult` is what the external
`web_search` call would return (it never raises — failures yield `""`).
`post_count` is the request's integer (non-negative on every reachable
call). -/
def create_linkedin_posts (env : Nat → ProviderResult × ℚ)
    (webResult : String) (topic : String) (tone audience : Option String)
    (post_count : Nat) (use_web_search : Bool) (api_key : String) :
    Except PyErr GenResult :=
  match LLMClient.make "groq" api_key with
  | .error e => .error e
  | .ok llm_client =>
    let context := if use_web_search then webResult else ""
    let (r0, lat0) := env 0
    let (c1, res0) :=
      llm_client.generate_text (brainstormPrompt topic post_count context) 500 r0 lat0
    match res0 with
    | .error e => .error e
    | .ok angles_response =>
      let angles := finalAngles topic post_count angles_response
      match runBatch env 800 c1 1 (angles.map (draftPrompt context tone audience)) with
      | (_, _, .error e) => .error e
      | (c2, idx2, .ok drafted_posts) =>
        match runBatch env 300 c2 idx2 (drafted_posts.map refinementPrompt) with
        | (_, _, .error e) => .error e
        | (c3, _, .ok refinement_responses) =>
          match buildPosts topic (drafted_posts.zip refinement_responses) with
          | .error e => .error e
          | .ok final_posts =>
            .ok { posts := apply_content_moderation final_posts,
                  metrics := c3.get_metrics,
                  used_web_search := use_web_search,
                  context_found := decide (context ≠ "") }

/-- One event yielded by the streaming form (field names follow the
yielded dicts). -/
inductive StreamEvent where
  | statusEv (status : String) (message : String) (progress : ℚ)
  | postEv (data : FinalPost) (index : Nat) (progress : ℚ)
  | metricsEv (data : Metrics) (progress : ℚ)
  | completeEv (message : String) (posts : List FinalPost) (metrics : Metrics)
      (used_web_search : Bool) (context_found : Bool) (progress : ℚ)
  | errorEv (message : String) (progress : ℚ)
deriving DecidableEq

/-- The `progress` field carried by every event. -/
def StreamEvent.progress : StreamEvent → ℚ
  | .statusEv _ _ p => p
  | .postEv _ _ p => p
  | .metricsEv _ p => p
  | .completeEv _ _ _ _ _ p => p
  | .errorEv _ p => p

/-- Terminal events: `complete` and `error`. -/
def StreamEvent.isTerminal : StreamEvent → Bool
  | .completeEv _ _ _ _ _ _ => true
  | .errorEv _ _ => true
  | _ => false

/-- Whether an event is the terminal `error` event. -/
def StreamEvent.isErrorEv : StreamEvent → Bool
  | .errorEv _ _ => true
  | _ => false

/-- The streaming form's per-post loop: build each final post, moderate it
individually, and yield one indexed `post` event with progress
`65 + 25 * (i + 1) / total`; a raised `AttributeError` aborts the loop
(the events already yielded stay yielded). -/
def streamPostsLoop (topic : String) (total : Nat) :
    Nat → List (String × String) → List StreamEvent × Except PyErr (List FinalPost)
  | _, [] => ([], .ok [])
  | i, (post, refinement) :: rest =>
    match buildFinalPost topic post refinement with
    | .error e => ([], .error e)
    | .ok fp =>
      let mp :=
        match apply_content_moderation [fp] with
        | m :: _ => m
        | [] => fp
      let ev := StreamEvent.postEv mp i (65 + 25 * ((i : ℚ) + 1) / (total : ℚ))
      match streamPostsLoop topic total (i + 1) rest with
      | (evs, .error e) => (ev :: evs, .error e)
      | (evs, .ok ps) => (ev :: evs, .ok (mp :: ps))

/-- `create_linkedin_posts_stream` (streaming form), as the finite list of
events one full drain of the generator yields.  Any exception raised after
events have been yielded turns into a single terminal `error` event with
progress 0 (the generator's whole body sits in one `try`); a `ValueError`
from the constructor arrives before the first yield, so that run is the
error event alone. -/
def create_linkedin_posts_stream (env : Nat → ProviderResult × ℚ)
    (webResult : String) (topic : String) (tone audience : Option String)
    (post_count : Nat) (use_web_search : Bool) (api_key : String) :
    List StreamEvent :=
  match LLMClient.make "groq" api_key with
  | .error e => [.errorEv (pyErrMsg e) 0]
  | .ok llm_client =>
    let headEvents : List StreamEvent :=
      [.statusEv "starting" "Initializing post generation..." 5]
      ++ (if use_web_search then
            [.statusEv "researching" "Searching for latest information..." 15]
          else [])
      ++ [.statusEv "brainstorming" "Brainstorming content angles..." 25]
    let context := if use_web_search then webResult else ""
    let (r0, lat0) := env 0
    let (c1, res0) :=
      llm_client.generate_text (brainstormPrompt topic post_count context) 500 r0 lat0
    match res0 with
    | .error e => headEvents ++ [.errorEv (pyErrMsg e) 0]
    | .ok angles_response =>
      let angles := finalAngles topic post_count angles_response
      let draftingEv : StreamEvent :=
        .statusEv "drafting" s!"Creating {angles.length} post drafts..." 40
      match runBatch env 800 c1 1 (angles.map (draftPrompt context tone audience)) with
      | (_, _, .error e) => headEvents ++ [draftingEv, .errorEv (pyErrMsg e) 0]
      | (c2, idx2, .ok drafted_posts) =>
        let refiningEv : StreamEvent :=
          .statusEv "refining" "Adding hashtags and call-to-actions..." 65
        match runBatch env 300 c2 idx2 (drafted_posts.map refinementPrompt) with
        | (_, _, .error e) =>
          headEvents ++ [draftingEv, refiningEv, .errorEv (pyErrMsg e) 0]
        | (c3, _, .ok refinement_responses) =>
          match streamPostsLoop topic drafted_posts.length 0
              (drafted_posts.zip refinement_responses) with
          | (postEvents, .error e) =>
            headEvents ++ [draftingEv, refiningEv]
              ++ postEvents ++ [.errorEv (pyErrMsg e) 0]
          | (postEvents, .ok final_posts) =>
            headEvents ++ [draftingEv, refiningEv] ++ postEvents
              ++ [.metricsEv c3.get_metrics 95,
                  .completeEv
                    s!"Successfully generated {final_posts.length} LinkedIn posts"
                    final_posts c3.get_metrics use_web_search
                    (decide (context ≠ "")) 100]

/-- The `PostGenerationRequest` body of the endpoint (`post_count` and the
flags are optional with the model's defaults; `post_count` is an `Int` as
in Python, so zero and negative values can arrive). -/
structure PostGenerationRequest where
  topic : String
  tone : Option String := none
  audience : Option String := none
  post_count : Option Int := some 3
  use_web_search : Option Bool := some false

/-- The endpoint's success body (`GenerationResponse`). -/
structure GenerationResponse where
  posts : List FinalPost
  message : String
  metrics : Metrics
  used_web_search : Bool
  context_found : Bool
deriving DecidableEq

/-- The `POST /generate_posts` endpoint of `main.py`.  The whole handler
body sits in one `try`: the validation's `HTTPException(400)`s are
themselves caught by the final `except Exception` and re-raised as 500
(`str(exc)` of an `HTTPException` is `"{status}: {detail}"`).  Python
truthiness makes `post_count == 0` skip the range check and fall back to
the default 3 via `request.post_count or 3`.  The error result carries
the HTTP status and detail actually sent. -/
def generate_posts_endpoint (env : Nat → ProviderResult × ℚ)
    (webResult : String) (config_key : String)
    (req : PostGenerationRequest) : Except (Nat × String) GenerationResponse :=
  let pcTruthy : Bool :=
    match req.post_count with
    | some pc => decide (pc ≠ 0)
    | none => false
  let body : Except PyErr GenerationResponse :=
    if pyStrip req.topic = "" then
      .error (.httpException 400 "Topic is required and cannot be empty")
    else if pcTruthy ∧ ((req.post_count.getD 3) < 1 ∨ 10 < (req.post_count.getD 3)) then
      .error (.httpException 400 "Post count must be between 1 and 10")
    else
      let pc : Int := if pcTruthy then req.post_count.getD 3 else 3
      match create_linkedin_posts env webResult (pyStrip req.topic) req.tone
          req.audience pc.toNat (req.use_web_search.getD false) config_key with
      | .error e => .error e
      | .ok r =>
        .ok { posts := r.posts,
              message := s!"Successfully generated {r.posts.length} LinkedIn posts",
              metrics := r.metrics,
              used_web_search := r.used_web_search,
              context_found := r.context_found }
  match body with
  | .ok r => .ok r
  | .error (.providerError m) =>
    .error (502, s!"The AI service provider is currently unavailable: {m}")
  | .error e => .error (500, s!"Failed to generate posts: {pyErrMsg e}")

deriving instance DecidableEq for Except

/-- The client state a fresh mock-mode groq client is in. -/
def mockClient : LLMClient :=
  { provider := "groq", api_key := "", use_mock := true,
    total_tokens := 0, total_latency := 0, call_count := 0 }

/-- The metrics snapshot of a client that made no calls. -/
def zeroMetrics : Metrics :=
  { total_tokens := 0, total_latency := 0, call_count := 0,
    avg_latency_per_call := 0 }

/-- The three angles parsed out of the canned mock brainstorm response. -/
def mockAnglesList : List String :=
  ["Personal career journey and lessons learned",
   "Industry trends and future predictions",
   "Tips and best practices for professionals"]

/-- The hashtags parsed out of the canned mock refinement JSON. -/
def mockTags : List String :=
  ["#TechInnovation", "#CareerGrowth", "#ContinuousLearning",
   "#ProfessionalDevelopment", "#Innovation"]

/-- The CTA parsed out of the canned mock refinement JSON. -/
def mockCta : String :=
  s!"What{apos}s one thing you{apos}ve learned recently that changed your perspective? Share your thoughts in the comments!"

/-- The final post a mock-mode run assembles for every angle (it passes
moderation unchanged). -/
def mockPost : FinalPost :=
  { post_text := mockDraft, hashtags := mockTags, cta := mockCta }

/-- Progress values of an event list are non-decreasing. -/
def eventsMonotone (es : List StreamEvent) : Prop :=
  List.Chain' (· ≤ ·) (es.map StreamEvent.progress)

set_option maxRecDepth 6000

theorem containsList_infix_iff {n l : List Char} :
    containsList n l = true ↔ n <:+: l := by
  induction l with
  | nil =>
    simp [containsList, List.isEmpty_iff, List.infix_nil]
  | cons a t ih =>
    simp only [containsList, Bool.or_eq_true, List.infix_cons_iff, ih,
      List.isPrefixOf_iff_prefix]

theorem containsList_mono {n p l : List Char} (h₁ : containsList n p = true)
    (h₂ : p <:+: l) : containsList n l = true := by
  rw [containsList_infix_iff] at h₁ ⊢
  exact h₁.trans h₂

theorem containsSub_lower_glue {w part : String}
    (h : containsSub w (pyLower part) = true) (X Y : List Char) :
    containsList w.data ((X ++ part.data ++ Y).map Char.toLower) = true := by
  refine containsList_mono h ?_
  simp only [pyLower, List.map_append]
  exact List.infix_append _ _ _

theorem generate_text_mock (c : LLMClient) (h : c.use_mock = true)
    (prompt : String) (mt : Nat) (res : ProviderResult) (lat : ℚ) :
    c.generate_text prompt mt res lat = (c, .ok (mock_response prompt)) := by
  simp [LLMClient.generate_text, h]

theorem runBatch_mock (env : Nat → ProviderResult × ℚ) (mt : Nat)
    (c : LLMClient) (h : c.use_mock = true) :
    ∀ (prompts : List String) (i : Nat),
      runBatch env mt c i prompts = (c, i + prompts.length, .ok (prompts.map mock_response)) := by
  intro prompts
  induction prompts with
  | nil => intro i; simp [runBatch]
  | cons p rest ih =>
    intro i
    simp only [runBatch, generate_text_mock c h, ih (i + 1), List.map_cons,
      List.length_cons]
    ring_nf

theorem make_groq_empty : LLMClient.make "groq" "" = .ok mockClient := by
  with_unfolding_all decide

theorem mockClient_metrics : mockClient.get_metrics = zeroMetrics := by
  with_unfolding_all decide

theorem mock_brainstorm (topic : String) (n : Nat) :
    mock_response (brainstormPrompt topic n "") = mockAngles := by
  have hB : ∀ w : String, containsSub w (pyLower ", brainstorm ") = true →
      containsSub w (pyLower (brainstormPrompt topic n "")) = true := by
    intro w hw
    have : brainstormPrompt topic n "" =
        ("Based on the topic " ++ apos ++ topic ++ apos) ++ ", brainstorm " ++
          (toString n ++
            " unique angles for a LinkedIn post. Return only a numbered list of these angles.") := by
      simp [brainstormPrompt, String.append_assoc]
    rw [this]
    show containsList _ _ = true
    simp only [pyLower, String.data_append]
    exact containsSub_lower_glue hw _ _
  have hA : ∀ w : String,
      containsSub w (pyLower " unique angles for a LinkedIn post. Return only a numbered list of these angles.") = true →
      containsSub w (pyLower (brainstormPrompt topic n "")) = true := by
    intro w hw
    have : brainstormPrompt topic n "" =
        ("Based on the topic " ++ apos ++ topic ++ apos ++ ", brainstorm " ++ toString n) ++
          " unique angles for a LinkedIn post. Return only a numbered list of these angles." ++
          "" := by
      simp [brainstormPrompt, String.append_assoc]
    rw [this]
    show containsList _ _ = true
    simp only [pyLower, String.data_append]
    exact containsSub_lower_glue hw _ _
  unfold mock_response
  rw [if_pos]
  exact ⟨hB "brainstorm" (by with_unfolding_all decide),
         hA "angles" (by with_unfolding_all decide)⟩

theorem mock_draft_resp_1 :
    mock_response (draftPrompt "" none none "Personal career journey and lessons learned") = mockDraft := by
  with_unfolding_all decide

theorem mock_draft_resp_2 :
    mock_response (draftPrompt "" none none "Industry trends and future predictions") = mockDraft := by
  with_unfolding_all decide

theorem mock_draft_resp_3 :
    mock_response (draftPrompt "" none none "Tips and best practices for professionals") = mockDraft := by
  with_unfolding_all decide

theorem mock_refine_resp :
    mock_response (refinementPrompt mockDraft) = mockRefinement := by
  with_unfolding_all decide

theorem moderate_mockDraft : moderate_content mockDraft = (true, "") := by
  with_unfolding_all decide

theorem moderatePost_mockPost : moderatePost mockPost = mockPost := by
  simp only [moderatePost, mockPost, moderate_mockDraft, if_true]

theorem pyStrip_mockDraft : pyStrip mockDraft = mockDraft := by
  with_unfolding_all decide

theorem pyStrip_mockCta : pyStrip mockCta = mockCta := by
  with_unfolding_all decide

theorem jsonLoads_mockRefinement :
    jsonLoads ⟨sliceFirstLastBrace mockRefinement.data⟩ =
      some (JsonVal.obj [("hashtags", JsonVal.arr (mockTags.map JsonVal.str)),
                         ("cta", JsonVal.str mockCta)]) := by
  with_unfolding_all rfl

theorem buildFinalPost_mock (topic : String) :
    buildFinalPost topic mockDraft mockRefinement = .ok mockPost := by
  have h1 : (mockRefinement.data.contains (Char.ofNat 123)) = true := by
    with_unfolding_all decide
  have h2 : (mockRefinement.data.contains (Char.ofNat 125)) = true := by
    with_unfolding_all decide
  simp only [buildFinalPost, h1, h2, jsonLoads_mockRefinement, and_self, if_true,
    reduceIte]
  have h4 : objGet [("hashtags", JsonVal.arr (mockTags.map JsonVal.str)),
      ("cta", JsonVal.str mockCta)] "hashtags" (.arr []) =
      JsonVal.arr (mockTags.map JsonVal.str) := by with_unfolding_all rfl
  have h5 : objGet [("hashtags", JsonVal.arr (mockTags.map JsonVal.str)),
      ("cta", JsonVal.str mockCta)] "cta" (.str "") = JsonVal.str mockCta := by
    with_unfolding_all rfl
  rw [h4, h5]
  have h6 : normalizeTags (mockTags.map JsonVal.str) = Except.ok mockTags := by
    with_unfolding_all rfl
  simp only [h6, pyStrip_mockDraft, pyStrip_mockCta, mockPost]

theorem finalAngles_mock (topic : String) (n : Nat) :
    finalAngles topic n mockAngles = mockAnglesList.take n := by
  have h : parseAngles mockAngles = mockAnglesList := by with_unfolding_all decide
  simp [finalAngles, h, mockAnglesList]

theorem mock_draft_map (n : Nat) :
    (mockAnglesList.take n).map (fun a => mock_response (draftPrompt "" none none a)) =
      List.replicate (min n 3) mockDraft := by
  match n with
  | 0 => rfl
  | 1 => simp [mockAnglesList, mock_draft_resp_1]
  | 2 => simp [mockAnglesList, mock_draft_resp_1, mock_draft_resp_2]
  | (k+3) =>
    have h3 : mockAnglesList.take (k+3) = mockAnglesList :=
      List.take_of_length_le (by simp [mockAnglesList])
    have hm : min (k+3) 3 = 3 := by omega
    rw [h3, hm]
    simp [mockAnglesList, mock_draft_resp_1, mock_draft_resp_2, mock_draft_resp_3]

theorem buildPosts_replicate (topic : String) (k : Nat) :
    buildPosts topic (List.replicate k (mockDraft, mockRefinement)) =
      .ok (List.replicate k mockPost) := by
  induction k with
  | zero => rfl
  | succ k ih =>
    rw [List.replicate_succ]
    simp [buildPosts, buildFinalPost_mock, ih, List.replicate_succ]

theorem mock_pipeline (env : Nat → ProviderResult × ℚ) (topic : String) (n : Nat) :
    create_linkedin_posts env "" topic none none n false "" =
      .ok { posts := List.replicate (min n 3) mockPost, metrics := zeroMetrics,
            used_web_search := false, context_found := false } := by
  unfold create_linkedin_posts
  rw [make_groq_empty]
  simp only [Bool.false_eq_true, if_false, generate_text_mock mockClient rfl,
    mock_brainstorm, finalAngles_mock, runBatch_mock env 800 mockClient rfl,
    runBatch_mock env 300 mockClient rfl, List.map_map, Function.comp_def,
    mock_draft_map, List.map_replicate, mock_refine_resp,
    List.zip_replicate, Nat.min_self, buildPosts_replicate,
    apply_content_moderation, moderatePost_mockPost, mockClient_metrics,
    ne_eq, not_true_eq_false]
  rfl

theorem mock_stream_one (env : Nat → ProviderResult × ℚ) (topic : String) :
    create_linkedin_posts_stream env "" topic none none 1 false "" =
      [.statusEv "starting" "Initializing post generation..." 5,
       .statusEv "brainstorming" "Brainstorming content angles..." 25,
       .statusEv "drafting" "Creating 1 post drafts..." 40,
       .statusEv "refining" "Adding hashtags and call-to-actions..." 65,
       .postEv mockPost 0 (65 + 25 * (0 + 1) / 1),
       .metricsEv zeroMetrics 95,
       .completeEv "Successfully generated 1 LinkedIn posts" [mockPost]
         zeroMetrics false false 100] := by
  unfold create_linkedin_posts_stream
  rw [make_groq_empty]
  simp only [Bool.false_eq_true, if_false, generate_text_mock mockClient rfl,
    mock_brainstorm, finalAngles_mock, runBatch_mock env 800 mockClient rfl,
    runBatch_mock env 300 mockClient rfl, List.map_map, Function.comp_def,
    mock_draft_map, List.map_replicate, mock_refine_resp,
    List.zip_replicate, Nat.min_self, mockClient_metrics, ne_eq,
    not_true_eq_false]
  norm_num [streamPostsLoop, buildFinalPost_mock, apply_content_moderation,
    moderatePost_mockPost, List.replicate]
  refine ⟨?_, ?_⟩ <;> with_unfolding_all rfl

/-- C6: the content filter applies its rules in source order with first
match winning — denylist before capitalization before punctuation: a
denylist hit always yields the denylist reason naming the matched term,
a denylist-free text that trips the capitalization heuristic yields the
capitalization reason even when the punctuation rule would also fire,
and the punctuation reason appears only when neither earlier rule
matched; in particular
`moderate_content "This contains spam and misleading information!!!"`
returns `is_clean = false` with the reason naming `spam` although the
text also triggers the punctuation rule, and the all-caps `capsShout`
(which triggers both heuristics but no denylist word) yields the
capitalization reason, not the punctuation one. -/
theorem c6_filter_first_match_wins :
    (∀ text w, firstBannedWord text = some w →
       moderate_content text =
         (false, "Contains potentially inappropriate content: " ++ apos ++ w ++ apos)) ∧
    (∀ text, firstBannedWord text = none → capsTriggered text = true →
       moderate_content text = (false, "Excessive capitalization detected")) ∧
    (∀ text, firstBannedWord text = none → capsTriggered text = false →
       punctTriggered text = true →
       moderate_content text = (false, "Excessive punctuation detected")) ∧
    punctTriggered "This contains spam and misleading information!!!" = true ∧
    moderate_content "This contains spam and misleading information!!!" =
      (false, "Contains potentially inappropriate content: " ++ apos ++ "spam" ++ apos) ∧
    firstBannedWord capsShout = none ∧
    capsTriggered capsShout = true ∧
    punctTriggered capsShout = true ∧
    moderate_content capsShout = (false, "Excessive capitalization detected") := by
  refine ⟨?_, ?_, ?_, by with_unfolding_all decide, by with_unfolding_all decide,
    by with_unfolding_all decide, by with_unfolding_all decide,
    by with_unfolding_all decide, by with_unfolding_all decide⟩
  · intro text w h
    simp [moderate_content, h]
  · intro text h hc
    simp [moderate_content, h, hc]
  · intro text h hc hp
    simp [moderate_content, h, hc, hp]

/-- Witness for C6: the first-match rule applied at the spec's concrete
input, whose denylist hit is `spam`. -/
theorem c6_filter_first_match_wins_witness :
    moderate_content "This contains spam and misleading information!!!" =
      (false, "Contains potentially inappropriate content: " ++ apos ++ "spam" ++ apos) :=
  c6_filter_first_match_wins.1 "This contains spam and misleading information!!!"
    "spam" (by with_unfolding_all decide)

/-- C7: batch moderation is idempotent — applying
`apply_content_moderation` to its own output yields the same output,
because the fixed replacement text itself passes every filter rule. -/
theorem c7_moderation_idempotent :
    (∀ posts : List FinalPost,
       apply_content_moderation (apply_content_moderation posts) =
         apply_content_moderation posts) ∧
    moderate_content moderationMessage = (true, "") := by
  have hclean : moderate_content moderationMessage = (true, "") := by
    with_unfolding_all decide
  refine ⟨?_, hclean⟩
  have hpt : ∀ p : FinalPost, moderatePost (moderatePost p) = moderatePost p := by
    intro p
    rcases hm : moderate_content p.post_text with ⟨b, r⟩
    rcases b with _ | _
    · have h1 : moderatePost p =
          { post_text := moderationMessage, hashtags := ["#ContentModerated"],
            cta := "Please try again with a different topic." } := by
        simp [moderatePost, hm]
      rw [h1]
      simp [moderatePost, hclean]
    · have h1 : moderatePost p = p := by simp [moderatePost, hm]
      rw [h1, h1]
  intro posts
  simp only [apply_content_moderation, List.map_map, Function.comp_def, hpt]

/-- C4: provider failure policies are asymmetric.  In live mode, every
non-success outcome on the groq path makes `generate_text` raise
`LLMProviderError` carrying the status/detail (it never substitutes mock
output) — for a non-200 response the message is the wrapped
`Unexpected error: Groq API error {status}: {body}`, because the
function's own raise is re-caught by its trailing `except Exception` and
re-raised — while the gemini path returns the mock response on any
failure and never raises. -/
theorem c4_provider_failure_asymmetry :
    ∀ (c : LLMClient) (prompt : String) (mt : Nat) (res : ProviderResult) (lat : ℚ),
      c.use_mock = false →
      ((c.provider = "groq" →
         (∀ s b, res = .httpError s b →
           (c.generate_text prompt mt res lat).2 =
             .error (.providerError s!"Unexpected error: Groq API error {s}: {b}")) ∧
         (∀ m, res = .transportError m →
           (c.generate_text prompt mt res lat).2 =
             .error (.providerError s!"Connection error: {m}")) ∧
         (∀ m, res = .otherError m →
           (c.generate_text prompt mt res lat).2 =
             .error (.providerError s!"Unexpected error: {m}"))) ∧
       (c.provider = "gemini" →
         ((∀ t u, res ≠ .success t u) →
           (c.generate_text prompt mt res lat).2 = .ok (mock_response prompt)) ∧
         ∀ e, (c.generate_text prompt mt res lat).2 ≠ .error e)) := by
  intro c prompt mt res lat hmock
  constructor
  · intro hprov
    have hneq : ¬ (c.provider = "gemini") := by rw [hprov]; decide
    refine ⟨?_, ?_, ?_⟩
    · rintro s b rfl
      simp [LLMClient.generate_text, hmock, hneq, LLMClient.call_groq]
    · rintro m rfl
      simp [LLMClient.generate_text, hmock, hneq, LLMClient.call_groq]
    · rintro m rfl
      simp [LLMClient.generate_text, hmock, hneq, LLMClient.call_groq]
  · intro hprov
    constructor
    · intro hfail
      cases res with
      | success t u => exact absurd rfl (hfail t u)
      | httpError s b =>
        simp [LLMClient.generate_text, hmock, hprov, LLMClient.call_gemini]
      | transportError m =>
        simp [LLMClient.generate_text, hmock, hprov, LLMClient.call_gemini]
      | otherError m =>
        simp [LLMClient.generate_text, hmock, hprov, LLMClient.call_gemini]
    · intro e
      simp [LLMClient.generate_text, hmock, hprov]

/-- Witness for C4: a live groq client raises on an HTTP 500 with the
re-wrapped message; a live gemini client falls back to the mock response
on a transport failure. -/
theorem c4_provider_failure_asymmetry_witness :
    (({ provider := "groq", api_key := "k", use_mock := false, total_tokens := 0,
        total_latency := 0, call_count := 0 } : LLMClient).generate_text "p" 10
          (.httpError 500 "boom") 1).2 =
      .error (.providerError "Unexpected error: Groq API error 500: boom") ∧
    (({ provider := "gemini", api_key := "k", use_mock := false, total_tokens := 0,
        total_latency := 0, call_count := 0 } : LLMClient).generate_text "p" 10
          (.transportError "down") 1).2 = .ok (mock_response "p") :=
  ⟨((c4_provider_failure_asymmetry _ "p" 10 (.httpError 500 "boom") 1 rfl).1
      rfl).1 500 "boom" rfl,
   ((c4_provider_failure_asymmetry _ "p" 10 (.transportError "down") 1 rfl).2
      rfl).1 (by intro t u h; cases h)⟩

/-- C5 could not be confirmed as stated: in live mode only the groq path
touches the metrics accumulators — a live gemini `generate_text` call
leaves `call_count` at 0 instead of incrementing it. -/
theorem c5_gemini_no_tracking_counterexample :
    (LLMClient.make "gemini" "k").map
        (fun c => (((c.generate_text "p" 10 (.success "t" (some 5)) 2).1.call_count,
                    (c.generate_text "p" 10 (.success "t" (some 5)) 2).1.total_latency),
                   c.use_mock)) = .ok ((0, 0), false) := by
  with_unfolding_all decide

/-- C5 (amended): in live mode only the groq path touches the metrics
accumulators, and its accounting is per-outcome, not uniformly
exactly-once — a successful call and a connection failure accumulate the
latency and increment the call count exactly once, while a non-200
response (and a malformed 200 body) accumulates exactly twice, because
the in-block accounting has already run when the function's own raise
(or the body access's exception) is caught by the trailing
`except Exception`, whose handler accounts again before re-raising;
`total_tokens` grows only when a successful response reports usage, and
live gemini-path calls leave the client untouched. -/
theorem c5_live_metrics_accounting :
    ∀ (c : LLMClient) (prompt : String) (mt : Nat) (res : ProviderResult) (lat : ℚ),
      c.use_mock = false →
      ((c.provider = "groq" →
         ((∀ text u, res = .success text u →
            (c.generate_text prompt mt res lat).1.call_count = c.call_count + 1 ∧
            (c.generate_text prompt mt res lat).1.total_latency =
              c.total_latency + lat) ∧
          (∀ m, res = .transportError m →
            (c.generate_text prompt mt res lat).1.call_count = c.call_count + 1 ∧
            (c.generate_text prompt mt res lat).1.total_latency =
              c.total_latency + lat) ∧
          (∀ s b, res = .httpError s b →
            (c.generate_text prompt mt res lat).1.call_count = c.call_count + 1 + 1 ∧
            (c.generate_text prompt mt res lat).1.total_latency =
              c.total_latency + lat + lat) ∧
          (∀ m, res = .otherError m →
            (c.generate_text prompt mt res lat).1.call_count = c.call_count + 1 + 1 ∧
            (c.generate_text prompt mt res lat).1.total_latency =
              c.total_latency + lat + lat)) ∧
         (∀ text n, res = .success text (some n) →
           (c.generate_text prompt mt res lat).1.total_tokens = c.total_tokens + n) ∧
         ((∀ text n, res ≠ .success text (some n)) →
           (c.generate_text prompt mt res lat).1.total_tokens = c.total_tokens)) ∧
       (c.provider = "gemini" → (c.generate_text prompt mt res lat).1 = c)) := by
  intro c prompt mt res lat hmock
  constructor
  · intro hprov
    have hneq : ¬ (c.provider = "gemini") := by rw [hprov]; decide
    refine ⟨⟨?_, ?_, ?_, ?_⟩, ?_, ?_⟩
    · rintro text u rfl
      simp [LLMClient.generate_text, hmock, hneq, LLMClient.call_groq]
    · rintro m rfl
      simp [LLMClient.generate_text, hmock, hneq, LLMClient.call_groq]
    · rintro s b rfl
      simp [LLMClient.generate_text, hmock, hneq, LLMClient.call_groq]
    · rintro m rfl
      simp [LLMClient.generate_text, hmock, hneq, LLMClient.call_groq]
    · rintro text n rfl
      simp [LLMClient.generate_text, hmock, hneq, LLMClient.call_groq]
    · intro hne
      cases res with
      | success t u =>
        cases u with
        | none =>
          simp [LLMClient.generate_text, hmock, hneq, LLMClient.call_groq]
        | some n => exact absurd rfl (hne t n)
      | httpError s b =>
        simp [LLMClient.generate_text, hmock, hneq, LLMClient.call_groq]
      | transportError m =>
        simp [LLMClient.generate_text, hmock, hneq, LLMClient.call_groq]
      | otherError m =>
        simp [LLMClient.generate_text, hmock, hneq, LLMClient.call_groq]
  · intro hprov
    simp [LLMClient.generate_text, hmock, hprov]

/-- Witness for C5 (amended): a live groq call answered with an HTTP 500
increments the call count twice and accumulates its latency twice while
leaving the tokens untouched. -/
theorem c5_live_metrics_accounting_witness :
    (({ provider := "groq", api_key := "k", use_mock := false, total_tokens := 7,
        total_latency := 2, call_count := 4 } : LLMClient).generate_text "p" 10
          (.httpError 500 "boom") 3).1.call_count = 4 + 1 + 1 ∧
    (({ provider := "groq", api_key := "k", use_mock := false, total_tokens := 7,
        total_latency := 2, call_count := 4 } : LLMClient).generate_text "p" 10
          (.httpError 500 "boom") 3).1.total_latency = 2 + 3 + 3 ∧
    (({ provider := "groq", api_key := "k", use_mock := false, total_tokens := 7,
        total_latency := 2, call_count := 4 } : LLMClient).generate_text "p" 10
          (.httpError 500 "boom") 3).1.total_tokens = 7 :=
  ⟨(((c5_live_metrics_accounting _ "p" 10 (.httpError 500 "boom") 3 rfl).1
      rfl).1.2.2.1 500 "boom" rfl).1,
   (((c5_live_metrics_accounting _ "p" 10 (.httpError 500 "boom") 3 rfl).1
      rfl).1.2.2.1 500 "boom" rfl).2,
   ((c5_live_metrics_accounting _ "p" 10 (.httpError 500 "boom") 3 rfl).1
      rfl).2.2 (by intro t n h; cases h)⟩

theorem roundHalfEven_abs_le (x : ℚ) : |(roundHalfEven x : ℚ) - x| ≤ 1 / 2 := by
  have h0 : (⌊x⌋ : ℚ) ≤ x := Int.floor_le x
  have h1 : x < ⌊x⌋ + 1 := Int.lt_floor_add_one x
  rw [abs_le]
  unfold roundHalfEven
  split_ifs with ha hb hc <;> constructor <;> push_cast <;> linarith

theorem round3_abs_le (q : ℚ) : |round3 q - q| ≤ 1 / 2000 := by
  have h := roundHalfEven_abs_le (q * 1000)
  unfold round3
  rw [show (roundHalfEven (q * 1000) : ℚ) / 1000 - q =
        ((roundHalfEven (q * 1000) : ℚ) - q * 1000) / 1000 by ring]
  rw [abs_div, abs_of_pos (by norm_num : (0:ℚ) < 1000)]
  calc |(roundHalfEven (q * 1000) : ℚ) - q * 1000| / 1000 ≤ (1 / 2) / 1000 := by
        gcongr
    _ = 1 / 2000 := by norm_num

/-- C9 could not be confirmed as stated: the snapshot rounds both fields
to three decimals, so after three successful live calls of latency 1/3
each, `avg_latency_per_call` is `0.333`, which equals neither the
reported nor the raw `total_latency` divided by `call_count` (both give
1/3). -/
theorem c9_rounding_counterexample :
    (LLMClient.make "groq" "k").map (fun c0 =>
      let c1 := (c0.call_groq (.success "t" none) (1/3)).1
      let c2 := (c1.call_groq (.success "t" none) (1/3)).1
      let c3 := (c2.call_groq (.success "t" none) (1/3)).1
      decide (c3.get_metrics.avg_latency_per_call =
                c3.get_metrics.total_latency / (c3.get_metrics.call_count : ℚ) ∨
              c3.get_metrics.avg_latency_per_call =
                c3.total_latency / (c3.call_count : ℚ))) = .ok false := by
  with_unfolding_all decide

/-- C9 (amended): `avg_latency_per_call` is `total_latency / call_count`
rounded to three decimals (within 1/2000 of the exact quotient) when
`call_count > 0`; it is 0 when `call_count == 0` and nothing was
accumulated; the divisor is `max(call_count, 1)` so no division by zero
occurs, and the snapshot reports the accumulators without changing them
(the snapshot is a pure function of the client state). -/
theorem c9_metrics_avg_rounded :
    ∀ c : LLMClient,
      (0 < c.call_count →
        c.get_metrics.avg_latency_per_call =
          round3 (c.total_latency / (c.call_count : ℚ)) ∧
        |c.get_metrics.avg_latency_per_call - c.total_latency / (c.call_count : ℚ)| ≤
          1 / 2000) ∧
      (c.call_count = 0 → c.total_latency = 0 →
        c.get_metrics.avg_latency_per_call = 0) ∧
      c.get_metrics.total_tokens = c.total_tokens ∧
      c.get_metrics.call_count = c.call_count := by
  intro c
  refine ⟨?_, ?_, rfl, rfl⟩
  · intro h
    have hmax : max c.call_count 1 = c.call_count := Nat.max_eq_left h
    have he : c.get_metrics.avg_latency_per_call =
        round3 (c.total_latency / (c.call_count : ℚ)) := by
      simp [LLMClient.get_metrics, hmax]
    refine ⟨he, ?_⟩
    rw [he]
    exact round3_abs_le _
  · intro h0 hl
    have : c.get_metrics.avg_latency_per_call = round3 0 := by
      simp [LLMClient.get_metrics, h0, hl]
    rw [this]
    with_unfolding_all decide

/-- Witness for C9 (amended): a client with three calls totalling one
second of latency reports the rounded average. -/
theorem c9_metrics_avg_rounded_witness :
    ((0:ℕ) < 3) ∧
    ({ provider := "groq", api_key := "k", use_mock := false, total_tokens := 5,
       total_latency := 1, call_count := 3 } : LLMClient).get_metrics.avg_latency_per_call =
      round3 ((1:ℚ) / ((3:ℕ) : ℚ)) :=
  ⟨by decide, ((c9_metrics_avg_rounded _).1 (by decide)).1⟩

/-- C1 names a code bug: in mock mode (the repository's own test
configuration, `test_basic.py` asserts five posts for `post_count=5`)
the brainstorm stage parses three angles and the angle list is only
truncated to at most `post_count`, never padded, so
`create_linkedin_posts(topic="data science", post_count=5, api_key="")`
returns 3 posts, not 5. -/
theorem c1_post_count_shortfall :
    (∀ env : Nat → ProviderResult × ℚ,
       (create_linkedin_posts env "" "data science" none none 5 false "").map
         (fun r => r.posts.length) = .ok 3) ∧
    ¬ ((create_linkedin_posts (fun _ => (.transportError "unused", 0)) ""
          "data science" none none 5 false "").map (fun r => r.posts.length) =
        .ok 5) := by
  constructor
  · intro env
    rw [mock_pipeline]
    rfl
  · rw [mock_pipeline]
    intro h
    simp [Except.map] at h

/-- C2 names a code bug: the endpoint's own `HTTPException(400)`s are
raised inside its `try` block, caught by the final `except Exception`,
and re-raised as 500 — an empty/whitespace topic or an out-of-range
`post_count` is rejected before any provider call (the result does not
depend on the provider environment), but with HTTP status 500, not 400;
moreover `post_count = 0` is falsy, skips the range check entirely, and
generation proceeds with the default of 3 posts. -/
theorem c2_validation_maps_to_500 :
    (∀ (env : Nat → ProviderResult × ℚ) (webResult key : String),
       generate_posts_endpoint env webResult key
         { topic := "", tone := none, audience := none, post_count := some 3,
           use_web_search := some false } =
         .error (500,
           "Failed to generate posts: 400: Topic is required and cannot be empty")) ∧
    (∀ (env : Nat → ProviderResult × ℚ) (webResult key : String),
       generate_posts_endpoint env webResult key
         { topic := "   ", tone := none, audience := none, post_count := some 3,
           use_web_search := some false } =
         .error (500,
           "Failed to generate posts: 400: Topic is required and cannot be empty")) ∧
    (∀ (env : Nat → ProviderResult × ℚ) (webResult key : String),
       generate_posts_endpoint env webResult key
         { topic := "ai", tone := none, audience := none, post_count := some 11,
           use_web_search := some false } =
         .error (500,
           "Failed to generate posts: 400: Post count must be between 1 and 10")) ∧
    ((generate_posts_endpoint (fun _ => (.transportError "unused", 0)) "" ""
        { topic := "ai", tone := none, audience := none, post_count := some 0,
          use_web_search := some false }).map (fun r => r.posts.length) =
      .ok 3) := by
  refine ⟨?_, ?_, ?_, ?_⟩
  · intro env webResult key
    rfl
  · intro env webResult key
    rfl
  · intro env webResult key
    rfl
  · show (generate_posts_endpoint _ _ _ _).map _ = _
    unfold generate_posts_endpoint
    norm_num [pyStrip, pyStripList, mock_pipeline]
    with_unfolding_all decide

theorem round3_zero : round3 0 = 0 := by with_unfolding_all decide

theorem normalizeTags_strs (ts : List String) :
    normalizeTags (ts.map JsonVal.str) = .ok (ts.map normalizeTag) := by
  induction ts with
  | nil => rfl
  | cons t rest ih =>
    simp [normalizeTags, normalizeJsonTag, ih]

theorem buildFinalPost_fallback (topic post r : String)
    (h : ¬(r.data.contains (Char.ofNat 123) = true ∧
           r.data.contains (Char.ofNat 125) = true)) :
    buildFinalPost topic post r =
      .ok { post_text := pyStrip post,
            hashtags := (fallbackHashtags topic).map normalizeTag,
            cta := pyStrip fallbackCta } := by
  unfold buildFinalPost
  rw [if_neg h]
  simp [normalizeTags_strs]

theorem buildFinalPost_mockRefinement (topic post : String) :
    buildFinalPost topic post mockRefinement =
      .ok { post_text := pyStrip post, hashtags := mockTags, cta := mockCta } := by
  have h1 : (mockRefinement.data.contains (Char.ofNat 123)) = true := by
    with_unfolding_all decide
  have h2 : (mockRefinement.data.contains (Char.ofNat 125)) = true := by
    with_unfolding_all decide
  simp only [buildFinalPost, h1, h2, jsonLoads_mockRefinement, and_self, if_true,
    reduceIte]
  have h4 : objGet [("hashtags", JsonVal.arr (mockTags.map JsonVal.str)),
      ("cta", JsonVal.str mockCta)] "hashtags" (.arr []) =
      JsonVal.arr (mockTags.map JsonVal.str) := by with_unfolding_all rfl
  have h5 : objGet [("hashtags", JsonVal.arr (mockTags.map JsonVal.str)),
      ("cta", JsonVal.str mockCta)] "cta" (.str "") = JsonVal.str mockCta := by
    with_unfolding_all rfl
  rw [h4, h5]
  have h6 : normalizeTags (mockTags.map JsonVal.str) = Except.ok mockTags := by
    with_unfolding_all rfl
  simp only [h6, pyStrip_mockCta]

theorem mock_response_cases (p : String) :
    mock_response p = mockAngles ∨ mock_response p = mockDraft ∨
    mock_response p = mockRefinement ∨ mock_response p = mockFallbackText := by
  unfold mock_response
  dsimp only
  split_ifs <;> simp

theorem buildFinalPost_ok_of_mock (topic post r : String)
    (h : r = mockAngles ∨ r = mockDraft ∨ r = mockRefinement ∨
         r = mockFallbackText) :
    ∃ fp, buildFinalPost topic post r = .ok fp := by
  rcases h with rfl | rfl | rfl | rfl
  · exact ⟨_, buildFinalPost_fallback topic post _ (by with_unfolding_all decide)⟩
  · exact ⟨_, buildFinalPost_fallback topic post _ (by with_unfolding_all decide)⟩
  · exact ⟨_, buildFinalPost_mockRefinement topic post⟩
  · exact ⟨_, buildFinalPost_fallback topic post _ (by with_unfolding_all decide)⟩

theorem buildPosts_ok_of_mock (topic : String) :
    ∀ pairs : List (String × String),
      (∀ pr ∈ pairs, pr.2 = mockAngles ∨ pr.2 = mockDraft ∨
        pr.2 = mockRefinement ∨ pr.2 = mockFallbackText) →
      ∃ fps, buildPosts topic pairs = .ok fps := by
  intro pairs
  induction pairs with
  | nil => intro _; exact ⟨[], rfl⟩
  | cons pr rest ih =>
    intro h
    obtain ⟨fp, hfp⟩ := buildFinalPost_ok_of_mock topic pr.1 pr.2 (h pr (by simp))
    obtain ⟨fps, hfps⟩ := ih (fun q hq => h q (by simp [hq]))
    refine ⟨fp :: fps, ?_⟩
    obtain ⟨p1, p2⟩ := pr
    simp only [buildPosts] at hfp ⊢
    rw [hfp, hfps]

theorem buildPosts_zip_mock_ok (topic : String) (xs ys : List String) :
    ∃ fps, buildPosts topic (xs.zip (ys.map mock_response)) = .ok fps :=
  buildPosts_ok_of_mock topic _ (by
    intro pr hpr
    have h2 := (List.of_mem_zip hpr).2
    obtain ⟨x, _, hx⟩ := List.mem_map.1 h2
    rw [← hx]
    exact mock_response_cases x)

/-- C10: in mock mode no sequence of `generate_text` calls ever mutates
the metrics accumulators (each call returns the canned response and the
unchanged state), a freshly constructed client reports all-zero metrics,
and an end-to-end generation run with an empty credential succeeds with
`total_tokens = total_latency = call_count = avg_latency_per_call = 0`. -/
theorem c10_mock_mode_metrics_frozen :
    (∀ (c : LLMClient), c.use_mock = true →
       ∀ calls : List ((String × Nat) × ProviderResult × ℚ),
         calls.foldl (fun st a => (st.generate_text a.1.1 a.1.2 a.2.1 a.2.2).1) c =
           c) ∧
    (∀ provider key c, LLMClient.make provider key = .ok c →
       c.get_metrics = zeroMetrics) ∧
    (∀ (env : Nat → ProviderResult × ℚ) (webResult topic : String)
       (tone audience : Option String) (n : Nat) (uws : Bool),
       ∃ r, create_linkedin_posts env webResult topic tone audience n uws "" =
              .ok r ∧
            r.metrics = zeroMetrics) := by
  refine ⟨?_, ?_, ?_⟩
  · intro c h calls
    induction calls with
    | nil => rfl
    | cons a t ih =>
      rw [List.foldl_cons, show (c.generate_text a.1.1 a.1.2 a.2.1 a.2.2).1 = c by
        rw [generate_text_mock c h]]
      exact ih
  · intro provider key c h
    unfold LLMClient.make at h
    dsimp only at h
    split at h
    · cases h
    · cases h
      simp only [LLMClient.get_metrics, zeroMetrics, Metrics.mk.injEq]
      refine ⟨trivial, ?_, trivial, ?_⟩
      · exact round3_zero
      · rw [show ((0:ℚ) / (max 0 1 : ℕ) : ℚ) = 0 by norm_num]
        exact round3_zero
  · intro env webResult topic tone audience n uws
    unfold create_linkedin_posts
    rw [make_groq_empty]
    simp only [generate_text_mock mockClient rfl,
      runBatch_mock env 800 mockClient rfl, runBatch_mock env 300 mockClient rfl]
    obtain ⟨fps, hfps⟩ := buildPosts_zip_mock_ok topic _ _
    rw [hfps]
    exact ⟨_, rfl, mockClient_metrics⟩

/-- Witness for C10: two mock calls leave the fresh client unchanged, and
a full mock run reports zero metrics. -/
theorem c10_mock_mode_metrics_frozen_witness :
    mockClient.use_mock = true ∧
    ([(("p", 10), (ProviderResult.httpError 500 "boom", (1:ℚ))),
      (("q", 20), (ProviderResult.success "t" (some 5), 2))].foldl
        (fun st a => (st.generate_text a.1.1 a.1.2 a.2.1 a.2.2).1) mockClient) =
      mockClient ∧
    (∃ r, create_linkedin_posts (fun _ => (.transportError "unused", 0)) "" "ai"
        none none 2 false "" = .ok r ∧ r.metrics = zeroMetrics) :=
  ⟨rfl,
   c10_mock_mode_metrics_frozen.1 mockClient rfl _,
   c10_mock_mode_metrics_frozen.2.2 _ "" "ai" none none 2 false⟩

theorem streamPostsLoop_snd (topic : String) (total : Nat) :
    ∀ (pairs : List (String × String)) (i : Nat),
      (streamPostsLoop topic total i pairs).2 =
        (buildPosts topic pairs).map apply_content_moderation := by
  intro pairs
  induction pairs with
  | nil => intro i; rfl
  | cons pr rest ih =>
    intro i
    obtain ⟨post, refinement⟩ := pr
    have ih' := ih (i + 1)
    simp only [streamPostsLoop, buildPosts]
    cases hb : buildFinalPost topic post refinement with
    | error e => rfl
    | ok fp =>
      rcases hr : streamPostsLoop topic total (i + 1) rest with ⟨evs, res⟩
      rw [hr] at ih'
      dsimp only at ih' ⊢
      cases hbp : buildPosts topic rest with
      | error e =>
        rw [hbp] at ih'
        simp only [Except.map] at ih'
        rw [ih']
        rfl
      | ok fps =>
        rw [hbp] at ih'
        simp only [Except.map] at ih'
        rw [ih']
        simp [apply_content_moderation, Except.map]

/-- C3: the aggregate and streaming forms apply identical stage logic —
whenever the streaming form's terminal event is a `complete` event, the
posts, metrics, `used_web_search` and `context_found` it carries are
exactly the aggregate form's result for the same inputs and the same
provider-call outcomes. -/
theorem c3_stream_complete_matches_aggregate :
    ∀ (env : Nat → ProviderResult × ℚ) (webResult topic : String)
      (tone audience : Option String) (post_count : Nat) (uws : Bool)
      (key msg : String) (posts : List FinalPost) (m : Metrics) (u cf : Bool)
      (p : ℚ),
      (create_linkedin_posts_stream env webResult topic tone audience post_count
          uws key).getLast? = some (.completeEv msg posts m u cf p) →
      create_linkedin_posts env webResult topic tone audience post_count uws key =
        .ok { posts := posts, metrics := m, used_web_search := u,
              context_found := cf } := by
  intro env web topic tone audience n uws key msg posts m u cf p h
  unfold create_linkedin_posts_stream at h
  unfold create_linkedin_posts
  cases hM : LLMClient.make "groq" key with
  | error e =>
    rw [hM] at h
    simp at h
  | ok client =>
    rw [hM] at h
    try dsimp only at h ⊢
    rcases hE : env 0 with ⟨r0, lat0⟩
    rw [hE] at h
    try dsimp only at h ⊢
    rcases hG : client.generate_text
        (brainstormPrompt topic n (if uws = true then web else "")) 500 r0 lat0
      with ⟨c1, res0⟩
    rw [hG] at h
    try dsimp only at h ⊢
    cases res0 with
    | error e =>
      rw [List.getLast?_append_cons] at h
      simp at h
    | ok angles_response =>
      try dsimp only at h ⊢
      rcases hD : runBatch env 800 c1 1
          ((finalAngles topic n angles_response).map
            (draftPrompt (if uws = true then web else "") tone audience))
        with ⟨c2, idx2, dres⟩
      rw [hD] at h
      try dsimp only at h ⊢
      cases dres with
      | error e =>
        rw [List.getLast?_append_cons] at h
        simp at h
      | ok drafted_posts =>
        try dsimp only at h ⊢
        rcases hR : runBatch env 300 c2 idx2 (drafted_posts.map refinementPrompt)
          with ⟨c3, idx3, rres⟩
        rw [hR] at h
        try dsimp only at h ⊢
        cases rres with
        | error e =>
          rw [List.getLast?_append_cons] at h
          simp at h
        | ok refinement_responses =>
          try dsimp only at h ⊢
          have hsnd := streamPostsLoop_snd topic drafted_posts.length
            (drafted_posts.zip refinement_responses) 0
          rcases hL : streamPostsLoop topic drafted_posts.length 0
              (drafted_posts.zip refinement_responses) with ⟨postEvents, built⟩
          rw [hL] at h hsnd
          try dsimp only at h hsnd
          cases built with
          | error e =>
            dsimp only at h
            rw [List.getLast?_append_cons] at h
            simp at h
          | ok final_posts =>
            dsimp only at h
            rw [List.getLast?_append_cons] at h
            simp at h
            obtain ⟨-, hposts, hm, hu, hcf, -⟩ := h
            cases hbp : buildPosts topic (drafted_posts.zip refinement_responses) with
            | error e =>
              rw [hbp] at hsnd
              simp [Except.map] at hsnd
            | ok fps =>
              rw [hbp] at hsnd
              simp only [Except.map, Except.ok.injEq] at hsnd
              dsimp only
              rw [hsnd] at hposts
              rw [← hposts, ← hm, ← hu, ← hcf]
              have hbool : decide ((if uws = true then web else "") ≠ "") =
                  (uws && !decide (web = "")) := by cases uws <;> simp
              rw [hbool]

/-- Witness for C3: a full mock run's terminal complete event matches the
aggregate result. -/
theorem c3_stream_complete_matches_aggregate_witness :
    (create_linkedin_posts_stream (fun _ => (.transportError "unused", 0)) "" "ai"
        none none 1 false "").getLast? =
      some (.completeEv "Successfully generated 1 LinkedIn posts" [mockPost]
        zeroMetrics false false 100) ∧
    create_linkedin_posts (fun _ => (.transportError "unused", 0)) "" "ai" none
        none 1 false "" =
      .ok { posts := [mockPost], metrics := zeroMetrics, used_web_search := false,
            context_found := false } :=
  ⟨by rw [mock_stream_one]; rfl,
   c3_stream_complete_matches_aggregate _ _ _ _ _ _ _ _ _ _ _ _ _ _
     (by rw [mock_stream_one]; rfl)⟩

theorem streamPostsLoop_events (topic : String) (total : Nat) :
    ∀ (pairs : List (String × String)) (i : Nat), i + pairs.length ≤ total →
      (∀ e ∈ (streamPostsLoop topic total i pairs).1,
          e.isTerminal = false ∧
          65 + 25 * ((i : ℚ) + 1) / (total : ℚ) ≤ e.progress ∧ e.progress ≤ 90) ∧
      List.Chain' (· ≤ ·) ((streamPostsLoop topic total i pairs).1.map
        StreamEvent.progress) := by
  intro pairs
  induction pairs with
  | nil =>
    intro i hle
    exact ⟨by simp [streamPostsLoop], by simp [streamPostsLoop]⟩
  | cons pr rest ih =>
    intro i hle
    obtain ⟨post, refinement⟩ := pr
    have hlen : i + (rest.length + 1) ≤ total := by simpa using hle
    have hle' : (i + 1) + rest.length ≤ total := by omega
    have ih' := ih (i + 1) hle'
    rw [show ((i + 1 : ℕ) : ℚ) = (i : ℚ) + 1 by push_cast; ring] at ih'
    have htpos : (0 : ℚ) < (total : ℚ) := by
      exact_mod_cast (by omega : 0 < total)
    have hiq : ((i : ℚ) + 1) ≤ (total : ℚ) := by
      exact_mod_cast (by omega : i + 1 ≤ total)
    have hnext : 65 + 25 * ((i : ℚ) + 1) / (total : ℚ) ≤
        65 + 25 * (((i : ℚ) + 1) + 1) / (total : ℚ) := by
      have h := div_le_div_of_nonneg_right
        (show 25 * ((i : ℚ) + 1) ≤ 25 * (((i : ℚ) + 1) + 1) by linarith) htpos.le
      linarith
    have hub : 65 + 25 * ((i : ℚ) + 1) / (total : ℚ) ≤ 90 := by
      have h2 : 25 * ((i : ℚ) + 1) / (total : ℚ) ≤ 25 := by
        rw [div_le_iff₀ htpos]
        nlinarith
      linarith
    simp only [streamPostsLoop]
    cases hb : buildFinalPost topic post refinement with
    | error e => exact ⟨by simp, by simp⟩
    | ok fp =>
      rcases hr : streamPostsLoop topic total (i + 1) rest with ⟨evs, res⟩
      rw [hr] at ih'
      dsimp only at ih' ⊢
      have hev : ∀ (mp : FinalPost),
          (match (evs, res) with
            | (evs, Except.error e) =>
              (StreamEvent.postEv mp i (65 + 25 * ((i : ℚ) + 1) / (total : ℚ)) :: evs,
                (Except.error e : Except PyErr (List FinalPost)))
            | (evs, Except.ok ps) =>
              (StreamEvent.postEv mp i (65 + 25 * ((i : ℚ) + 1) / (total : ℚ)) :: evs,
                Except.ok (mp :: ps))).1 =
            StreamEvent.postEv mp i (65 + 25 * ((i : ℚ) + 1) / (total : ℚ)) :: evs := by
        intro mp
        cases res <;> rfl
      rw [hev]
      constructor
      · intro e he
        rcases List.mem_cons.1 he with rfl | hmem
        · exact ⟨rfl, le_refl _, hub⟩
        · obtain ⟨ht, hlb, hub'⟩ := ih'.1 e hmem
          exact ⟨ht, le_trans hnext hlb, hub'⟩
      · rw [List.map_cons, List.chain'_cons']
        refine ⟨?_, ih'.2⟩
        intro y hy
        rw [List.head?_map] at hy
        obtain ⟨e0, he0, rfl⟩ := Option.map_eq_some'.1 hy
        have hmem : e0 ∈ evs := List.mem_of_mem_head? he0
        obtain ⟨-, hlb, -⟩ := ih'.1 e0 hmem
        exact le_trans hnext hlb

/-- C8 could not be confirmed as stated: the terminal error event carries
progress 0, so a live run whose brainstorm call fails emits progresses
`[5, 25, 0]` — not monotonically non-decreasing. -/
theorem c8_error_progress_counterexample :
    ((create_linkedin_posts_stream (fun _ => (.httpError 500 "boom", 1)) "" "ai"
        none none 2 false "key").map StreamEvent.progress = [5, 25, 0]) ∧
    ¬ eventsMonotone (create_linkedin_posts_stream
        (fun _ => (.httpError 500 "boom", 1)) "" "ai" none none 2 false "key") := by
  have h : (create_linkedin_posts_stream (fun _ => (.httpError 500 "boom", 1)) ""
      "ai" none none 2 false "key").map StreamEvent.progress = [5, 25, 0] := by
    with_unfolding_all decide
  refine ⟨h, ?_⟩
  intro hmono
  rw [eventsMonotone, h] at hmono
  rw [List.chain'_cons, List.chain'_cons] at hmono
  have h2 := hmono.2.1
  norm_num at h2

theorem chain'_le_append {l₁ l₂ : List ℚ} (h₁ : List.Chain' (· ≤ ·) l₁)
    (h₂ : List.Chain' (· ≤ ·) l₂)
    (hb : ∀ x ∈ l₁.getLast?, ∀ y ∈ l₂.head?, x ≤ y) :
    List.Chain' (· ≤ ·) (l₁ ++ l₂) :=
  List.chain'_append.2 ⟨h₁, h₂, hb⟩

theorem headEvents_facts (uws : Bool) :
    (∀ e ∈ (([StreamEvent.statusEv "starting" "Initializing post generation..." 5] ++
          (if uws = true then
            [StreamEvent.statusEv "researching" "Searching for latest information..." 15]
          else [])) ++
        [StreamEvent.statusEv "brainstorming" "Brainstorming content angles..." 25]),
      e.isTerminal = false ∧ 5 ≤ e.progress ∧ e.progress ≤ 25) ∧
    List.Chain' (· ≤ ·)
      (((([StreamEvent.statusEv "starting" "Initializing post generation..." 5] ++
          (if uws = true then
            [StreamEvent.statusEv "researching" "Searching for latest information..." 15]
          else [])) ++
        [StreamEvent.statusEv "brainstorming" "Brainstorming content angles..." 25]).map
          StreamEvent.progress)) ∧
    ((([StreamEvent.statusEv "starting" "Initializing post generation..." 5] ++
          (if uws = true then
            [StreamEvent.statusEv "researching" "Searching for latest information..." 15]
          else [])) ++
        [StreamEvent.statusEv "brainstorming" "Brainstorming content angles..." 25]).map
          StreamEvent.progress).getLast? = some 25 := by
  cases uws with
  | false =>
    refine ⟨?_, ?_, rfl⟩
    · intro e he
      simp at he
      rcases he with rfl | rfl
      · exact ⟨rfl, by norm_num [StreamEvent.progress], by norm_num [StreamEvent.progress]⟩
      · exact ⟨rfl, by norm_num [StreamEvent.progress], by norm_num [StreamEvent.progress]⟩
    · norm_num [List.chain'_cons, StreamEvent.progress]
  | true =>
    refine ⟨?_, ?_, rfl⟩
    · intro e he
      simp at he
      rcases he with rfl | rfl | rfl
      · exact ⟨rfl, by norm_num [StreamEvent.progress], by norm_num [StreamEvent.progress]⟩
      · exact ⟨rfl, by norm_num [StreamEvent.progress], by norm_num [StreamEvent.progress]⟩
      · exact ⟨rfl, by norm_num [StreamEvent.progress], by norm_num [StreamEvent.progress]⟩
    · norm_num [List.chain'_cons, StreamEvent.progress]

/-- C8 (amended): every streaming run is a non-empty event sequence with
exactly one terminal event, at the end — a `complete` event, in which
case all progress values of the run are monotonically non-decreasing, or
a single terminal `error` event, which carries progress 0 (breaking
monotonicity) while the events before it are monotonically
non-decreasing. -/
theorem c8_terminal_event_and_progress :
    ∀ (env : Nat → ProviderResult × ℚ) (webResult topic : String)
      (tone audience : Option String) (n : Nat) (uws : Bool) (key : String),
      ∃ (body : List StreamEvent) (last : StreamEvent),
        create_linkedin_posts_stream env webResult topic tone audience n uws key =
          body ++ [last] ∧
        (∀ e ∈ body, e.isTerminal = false) ∧
        last.isTerminal = true ∧
        (last.isErrorEv = false → eventsMonotone (body ++ [last])) ∧
        (last.isErrorEv = true → last.progress = 0 ∧ eventsMonotone body) := by
  intro env web topic tone audience n uws key
  unfold create_linkedin_posts_stream
  cases hM : LLMClient.make "groq" key with
  | error e =>
    refine ⟨[], .errorEv (pyErrMsg e) 0, rfl, by simp, rfl, ?_, ?_⟩
    · intro hfalse
      simp [StreamEvent.isErrorEv] at hfalse
    · intro _
      exact ⟨rfl, by simp [eventsMonotone]⟩
  | ok client =>
    dsimp only
    have hH := headEvents_facts uws
    set H : List StreamEvent :=
      ([StreamEvent.statusEv "starting" "Initializing post generation..." 5] ++
        (if uws = true then
          [StreamEvent.statusEv "researching" "Searching for latest information..." 15]
        else [])) ++
      [StreamEvent.statusEv "brainstorming" "Brainstorming content angles..." 25]
      with hHdef
    rcases env 0 with ⟨r0, lat0⟩
    try dsimp only
    rcases client.generate_text
        (brainstormPrompt topic n (if uws = true then web else "")) 500 r0 lat0
      with ⟨c1, res0⟩
    try dsimp only
    cases res0 with
    | error e =>
      refine ⟨H, .errorEv (pyErrMsg e) 0, rfl, fun e' he' => (hH.1 e' he').1, rfl,
        ?_, ?_⟩
      · intro hfalse
        simp [StreamEvent.isErrorEv] at hfalse
      · intro _
        exact ⟨rfl, hH.2.1⟩
    | ok angles_response =>
      try dsimp only
      rcases runBatch env 800 c1 1
          ((finalAngles topic n angles_response).map
            (draftPrompt (if uws = true then web else "") tone audience))
        with ⟨c2, idx2, dres⟩
      try dsimp only
      cases dres with
      | error e =>
        refine ⟨H ++ [.statusEv "drafting"
            (s!"Creating {(finalAngles topic n angles_response).length} post drafts...") 40],
          .errorEv (pyErrMsg e) 0, by simp, ?_, rfl, ?_, ?_⟩
        · intro e' he'
          rcases List.mem_append.1 he' with hm | hm
          · exact (hH.1 e' hm).1
          · rw [List.mem_singleton.1 hm]; rfl
        · intro hfalse
          simp [StreamEvent.isErrorEv] at hfalse
        · intro _
          refine ⟨rfl, ?_⟩
          rw [eventsMonotone, List.map_append]
          refine chain'_le_append hH.2.1 (by simp) ?_
          intro x hx y hy
          rw [hH.2.2] at hx
          simp [StreamEvent.progress] at hx hy
          linarith
      | ok drafted_posts =>
        try dsimp only
        rcases runBatch env 300 c2 idx2 (drafted_posts.map refinementPrompt)
          with ⟨c3, idx3, rres⟩
        try dsimp only
        cases rres with
        | error e =>
          refine ⟨H ++ [.statusEv "drafting"
              (s!"Creating {(finalAngles topic n angles_response).length} post drafts...") 40,
              .statusEv "refining" "Adding hashtags and call-to-actions..." 65],
            .errorEv (pyErrMsg e) 0, by simp, ?_, rfl, ?_, ?_⟩
          · intro e' he'
            rcases List.mem_append.1 he' with hm | hm
            · exact (hH.1 e' hm).1
            · rcases List.mem_cons.1 hm with rfl | hm2
              · rfl
              · rw [List.mem_singleton.1 hm2]; rfl
          · intro hfalse
            simp [StreamEvent.isErrorEv] at hfalse
          · intro _
            refine ⟨rfl, ?_⟩
            rw [eventsMonotone, List.map_append]
            refine chain'_le_append hH.2.1
              (by norm_num [List.chain'_cons, StreamEvent.progress]) ?_
            intro x hx y hy
            rw [hH.2.2] at hx
            simp [StreamEvent.progress] at hx hy
            linarith
        | ok refinement_responses =>
          try dsimp only
          have hle : 0 + (drafted_posts.zip refinement_responses).length ≤
              drafted_posts.length := by
            rw [List.length_zip]
            omega
          have hPE := streamPostsLoop_events topic drafted_posts.length
            (drafted_posts.zip refinement_responses) 0 hle
          rcases hS : streamPostsLoop topic drafted_posts.length 0
              (drafted_posts.zip refinement_responses) with ⟨postEvents, built⟩
          rw [hS] at hPE
          try dsimp only at hPE ⊢
          have hlow : ∀ e ∈ postEvents, (65:ℚ) ≤ e.progress := by
            intro e he
            have h0 : (0:ℚ) ≤ 25 * ((0:ℚ) + 1) / (drafted_posts.length : ℚ) := by
              positivity
            have := (hPE.1 e he).2.1
            linarith
          have hchainBody : List.Chain' (· ≤ ·)
              (((H ++ [StreamEvent.statusEv "drafting"
                  (s!"Creating {(finalAngles topic n angles_response).length} post drafts...") 40,
                 StreamEvent.statusEv "refining" "Adding hashtags and call-to-actions..." 65]) ++
                postEvents).map StreamEvent.progress) := by
            rw [List.map_append, List.map_append]
            refine chain'_le_append (chain'_le_append hH.2.1
              (by norm_num [List.chain'_cons, StreamEvent.progress]) ?_) hPE.2 ?_
            · intro x hx y hy
              rw [hH.2.2] at hx
              simp [StreamEvent.progress] at hx hy
              linarith
            · intro x hx y hy
              simp [StreamEvent.progress] at hx
              rw [List.head?_map] at hy
              obtain ⟨e0, he0, rfl⟩ := Option.map_eq_some'.1 hy
              have hmem : e0 ∈ postEvents := List.mem_of_mem_head? he0
              have h65 := hlow e0 hmem
              linarith
          have hmemBody : ∀ e' ∈ (H ++ [StreamEvent.statusEv "drafting"
                (s!"Creating {(finalAngles topic n angles_response).length} post drafts...") 40,
               StreamEvent.statusEv "refining" "Adding hashtags and call-to-actions..." 65]) ++
              postEvents, e'.isTerminal = false := by
            intro e' he'
            rcases List.mem_append.1 he' with hm | hm
            · rcases List.mem_append.1 hm with hm2 | hm2
              · exact (hH.1 e' hm2).1
              · rcases List.mem_cons.1 hm2 with rfl | hm3
                · rfl
                · rw [List.mem_singleton.1 hm3]; rfl
            · exact (hPE.1 e' hm).1
          have hub90 : ∀ x ∈ (H ++ [StreamEvent.statusEv "drafting"
                (s!"Creating {(finalAngles topic n angles_response).length} post drafts...") 40,
               StreamEvent.statusEv "refining" "Adding hashtags and call-to-actions..." 65]) ++
              postEvents, x.progress ≤ (90:ℚ) := by
            intro x hx
            rcases List.mem_append.1 hx with hm | hm
            · rcases List.mem_append.1 hm with hm2 | hm2
              · have := (hH.1 x hm2).2.2
                linarith
              · rcases List.mem_cons.1 hm2 with rfl | hm3
                · norm_num [StreamEvent.progress]
                · rw [List.mem_singleton.1 hm3]
                  norm_num [StreamEvent.progress]
            · exact (hPE.1 x hm).2.2
          cases built with
          | error e =>
            refine ⟨(H ++ [.statusEv "drafting"
                (s!"Creating {(finalAngles topic n angles_response).length} post drafts...") 40,
                .statusEv "refining" "Adding hashtags and call-to-actions..." 65]) ++
              postEvents, .errorEv (pyErrMsg e) 0, rfl, hmemBody, rfl, ?_, ?_⟩
            · intro hfalse
              simp [StreamEvent.isErrorEv] at hfalse
            · intro _
              exact ⟨rfl, hchainBody⟩
          | ok final_posts =>
            refine ⟨((H ++ [.statusEv "drafting"
                (s!"Creating {(finalAngles topic n angles_response).length} post drafts...") 40,
                .statusEv "refining" "Adding hashtags and call-to-actions..." 65]) ++
              postEvents) ++ [.metricsEv c3.get_metrics 95],
              .completeEv (s!"Successfully generated {final_posts.length} LinkedIn posts")
                final_posts c3.get_metrics uws
                (decide ((if uws = true then web else "") ≠ "")) 100,
              by simp, ?_, rfl, ?_, ?_⟩
            · intro e' he'
              rcases List.mem_append.1 he' with hm | hm
              · exact hmemBody e' hm
              · rw [List.mem_singleton.1 hm]; rfl
            · intro _
              rw [eventsMonotone, List.map_append, List.map_append]
              refine chain'_le_append (chain'_le_append hchainBody
                (by norm_num [List.chain'_cons, StreamEvent.progress]) ?_)
                (by norm_num [List.chain'_cons, StreamEvent.progress]) ?_
              · intro x hx y hy
                simp [StreamEvent.progress] at hy
                have hx' := List.mem_of_mem_getLast? hx
                rw [List.mem_map] at hx'
                obtain ⟨e0, he0, rfl⟩ := hx'
                have h90 := hub90 e0 he0
                linarith
              · intro x hx y hy
                simp [StreamEvent.progress] at hx hy
                rw [← List.cons_append, List.getLast?_concat] at hx
                simp at hx
                linarith
            · intro hfalse
              simp [StreamEvent.isErrorEv] at hfalse
